import Mathlib

/-!
# Sensorium single-page site: scroll tracker, navigation, menu and post viewer

Shallow embedding of the state logic of `src/src/MainComponent.js`
(component `SensoriumWebsite`).

* Pixel quantities read from the browser (`window.scrollY`, `window.innerHeight`,
  `scrollHeight`, `offsetTop`, ...) are finite numbers and are modelled as rationals.
* The result of the one division in the source can be non-finite in JavaScript
  (division by zero), so computed numbers live in `JSNum`: a rational, an infinity or NaN.
  Arithmetic is exact; binary rounding of IEEE doubles is not modelled.
* React state is an explicit `UIState` record; the DOM state written by the component
  (`document.body.style.overflow`) and the trace of DOM write commands are carried
  next to it in `World`.
* What the handlers read from the DOM at the time of a call is a `Dom` snapshot.
* Handlers are closures created by a render: a state value a handler reads (`isMenuOpen` in
  `toggleMenu`) is the value of the render that created it and is passed as an argument;
  conditionally rendered handlers (`renderMobileMenu`) exist only for renders that mount them.
-/

namespace SensoriumWebsite

/-! ## JavaScript numbers -/

/-- A JavaScript number value: a finite number, one of the two infinities, or NaN. -/
inductive JSNum where
  | fin (q : ℚ)
  | posInf
  | negInf
  | nan
  deriving DecidableEq

/-- JavaScript `a / b` for finite operands: a zero divisor yields NaN (for `0 / 0`) or an
infinity carrying the sign of the dividend. -/
def JSNum.divFin (a b : ℚ) : JSNum :=
  if b = 0 then
    (if a = 0 then JSNum.nan else if 0 < a then JSNum.posInf else JSNum.negInf)
  else JSNum.fin (a / b)

/-- JavaScript `x * c` for a finite right operand `c`. -/
def JSNum.mulFin (x : JSNum) (c : ℚ) : JSNum :=
  match x with
  | JSNum.fin q => JSNum.fin (q * c)
  | JSNum.posInf => if c = 0 then JSNum.nan else if 0 < c then JSNum.posInf else JSNum.negInf
  | JSNum.negInf => if c = 0 then JSNum.nan else if 0 < c then JSNum.negInf else JSNum.posInf
  | JSNum.nan => JSNum.nan

/-- The value is a number lying in the closed interval from 0 to 100. -/
def JSNum.inPercentRange (x : JSNum) : Prop :=
  match x with
  | JSNum.fin q => 0 ≤ q ∧ q ≤ 100
  | _ => False

instance (x : JSNum) : Decidable x.inPercentRange := by
  cases x <;> unfold JSNum.inPercentRange <;> infer_instance

/-! ## Data model -/

/-- A post of the static catalog (`posts`, lines 15-44). -/
structure Post where
  id : Nat
  title : String
  excerpt : String
  content : String
  thumbnail : String
  deriving DecidableEq

/-- The section identifiers, in declaration order (line 13). -/
def sections : List String := ["home", "posts", "about", "contact"]

/-- The static catalog of posts (lines 15-44). -/
def posts : List Post :=
  [ ⟨1, "Exploring Virtual Reality",
      "Dive into the world of VR and its impact on our senses.",
      "Full content of the VR post...", "/optic.jpg"⟩,
    ⟨2, "The Art of Sound Design",
      "Discover how sound shapes our perception of reality.",
      "Full content of the sound design post...", "/exhibition.jpg"⟩,
    ⟨3, "Visual Illusions in Digital Art",
      "Explore the fascinating world of visual illusions in digital mediums.",
      "Full content of the visual illusions post...", "/debate.jpg"⟩,
    ⟨4, "The Future of Haptic Feedback",
      "Learn about emerging technologies in touch sensation.",
      "Full content of the haptic feedback post...", "/workshop.jpg"⟩ ]

/-- The four `useState` cells of the component (lines 7-10). -/
structure UIState where
  activeSection : String
  isMenuOpen : Bool
  activePost : Option Post
  scrollProgress : JSNum
  deriving DecidableEq

/-- Geometry of a DOM element as the handlers read it: `offsetTop`, `offsetHeight` and
`getBoundingClientRect().top`. -/
structure Element where
  offsetTop : ℚ
  offsetHeight : ℚ
  rectTop : ℚ
  deriving DecidableEq

/-- What the handlers read from the browser at the time of a call.
`window.pageYOffset` is an alias of `window.scrollY` and is read from `scrollY`.
`nav` is the `offsetHeight` of `document.querySelector(nav)`, absent when no such element
exists. -/
structure Dom where
  scrollY : ℚ
  innerHeight : ℚ
  scrollHeight : ℚ
  getElementById : String → Option Element
  nav : Option ℚ

/-- A write command sent to the DOM. -/
inductive Effect where
  | scrollTo (top : ℚ) (behavior : String)
  | setBodyOverflow (value : String)
  deriving DecidableEq

/-- Errors a handler can throw. -/
inductive JSError where
  | typeError
  deriving DecidableEq

/-- React state, the current `document.body.style.overflow`, and the trace of DOM writes
issued so far (oldest first). -/
structure World where
  ui : UIState
  bodyOverflow : String
  effects : List Effect
  deriving DecidableEq

/-- State after mount: the `useState` defaults, no inline overflow style on the body, and no
write issued yet. -/
def init : World :=
  { ui := { activeSection := "home", isMenuOpen := false, activePost := none,
            scrollProgress := JSNum.fin 0 },
    bodyOverflow := "",
    effects := [] }

/-- The page scroll is locked: the body overflow style is `hidden`. -/
def scrollLocked (w : World) : Bool :=
  w.bodyOverflow == "hidden"

/-! ## Scroll tracker (lines 52-69) -/

/-- Line 56: `(scrollPosition / (fullHeight - windowHeight)) * 100`. -/
def scrollPercentage (scrollPosition windowHeight fullHeight : ℚ) : JSNum :=
  (JSNum.divFin scrollPosition (fullHeight - windowHeight)).mulFin 100

/-- Lines 63-64: the range test deciding whether a section becomes active. -/
def inActiveRange (scrollPosition windowHeight : ℚ) (element : Element) : Bool :=
  decide (scrollPosition ≥ element.offsetTop - windowHeight / 2) &&
    decide (scrollPosition < element.offsetTop + element.offsetHeight - windowHeight / 2)

/-- Lines 59-68, body of the `forEach` callback for one section. -/
def sectionStep (dom : Dom) (ui : UIState) (sec : String) : UIState :=
  match dom.getElementById sec with
  | some element =>
    if inActiveRange dom.scrollY dom.innerHeight element then
      { ui with activeSection := sec }
    else ui
  | none => ui

/-- Lines 52-69: the scroll listener. -/
def handleScroll (dom : Dom) (w : World) : World :=
  let scrollPosition := dom.scrollY
  let windowHeight := dom.innerHeight
  let fullHeight := dom.scrollHeight
  let ui1 := { w.ui with
    scrollProgress := scrollPercentage scrollPosition windowHeight fullHeight }
  { w with ui := sections.foldl (sectionStep dom) ui1 }

/-! ## Menu, post viewer and navigation (lines 83-107, 192-195) -/

/-- Line 83: `setIsMenuOpen(!isMenuOpen)`. The handler is a closure created by a render;
`isMenuOpen` is the value of the state cell in that render, not the value current at the
time of the call, and its negation overwrites the state cell. -/
def toggleMenu (isMenuOpen : Bool) (w : World) : World :=
  { w with ui := { w.ui with isMenuOpen := !isMenuOpen } }

/-- Lines 85-88. -/
def openPost (post : Post) (w : World) : World :=
  { w with
    ui := { w.ui with activePost := some post },
    bodyOverflow := "hidden",
    effects := w.effects ++ [Effect.setBodyOverflow "hidden"] }

/-- Lines 90-93. -/
def closePost (w : World) : World :=
  { w with
    ui := { w.ui with activePost := none },
    bodyOverflow := "auto",
    effects := w.effects ++ [Effect.setBodyOverflow "auto"] }

/-- Lines 95-107. Reading `.offsetHeight` of a missing `nav` (a `null`) throws a
`TypeError`; the read happens only once the section element was found. -/
def scrollToSection (dom : Dom) (sectionId : String) (w : World) : Except JSError World :=
  match dom.getElementById sectionId with
  | some element =>
    match dom.nav with
    | none => Except.error JSError.typeError
    | some navbarHeight =>
      let elementPosition := element.rectTop
      let offsetPosition := elementPosition + dom.scrollY - navbarHeight
      Except.ok { w with effects := w.effects ++ [Effect.scrollTo offsetPosition "smooth"] }
  | none => Except.ok w

/-- Lines 192-195: the click handler of an entry of the mobile menu, created by a render in
which the state cell had the value `isMenuOpen`. -/
def mobileMenuOnClick (isMenuOpen : Bool) (dom : Dom) (sec : String) (w : World) :
    Except JSError World :=
  match scrollToSection dom sec w with
  | Except.ok w1 => Except.ok (toggleMenu isMenuOpen w1)
  | Except.error e => Except.error e

/-- Lines 160-205: a render mounts the mobile overlay, and with it the click handler of its
entries, only when `isMenuOpen` is true in that render. The overlay stays mounted with the
handlers of that render while its exit animation plays. -/
def renderMobileMenu (isMenuOpen : Bool) :
    Option (Dom → String → World → Except JSError World) :=
  if isMenuOpen then some (mobileMenuOnClick isMenuOpen) else none

/-! ## Event loop -/

/-- The events the component reacts to, each with the DOM snapshot its handler reads.
A menu toggle carries the `isMenuOpen` captured by the handler that is clicked (the header
button and the close button of the overlay, lines 144 and 180); the handler of a selection in
the mobile menu belongs to a mounted overlay, hence to a render with `isMenuOpen` true. -/
inductive Event where
  | scroll (dom : Dom)
  | toggleMenu (isMenuOpen : Bool)
  | navigate (dom : Dom) (sectionId : String)
  | mobileSelect (dom : Dom) (sec : String)
  | openPost (post : Post)
  | closePost

/-- One event. A handler that throws is aborted by the browser; the handlers here throw
before any state update or DOM write, so the world is then unchanged. -/
def step (w : World) (e : Event) : World :=
  match e with
  | Event.scroll dom => handleScroll dom w
  | Event.toggleMenu isMenuOpen => toggleMenu isMenuOpen w
  | Event.navigate dom sectionId =>
    match scrollToSection dom sectionId w with
    | Except.ok w1 => w1
    | Except.error _ => w
  | Event.mobileSelect dom sec =>
    match mobileMenuOnClick true dom sec w with
    | Except.ok w1 => w1
    | Except.error _ => w
  | Event.openPost post => openPost post w
  | Event.closePost => closePost w

/-- Run a sequence of events from a state. -/
def run (w : World) (es : List Event) : World :=
  es.foldl step w

/-! ## Specification-side definitions -/

/-- Section 4.1 of the specification, in its words: a section matches when its element exists
and the offset falls within `[top - viewportHeight/2, top + height - viewportHeight/2)`. -/
def specSectionMatches (dom : Dom) (sec : String) : Bool :=
  match dom.getElementById sec with
  | some element =>
    decide (element.offsetTop - dom.innerHeight / 2 ≤ dom.scrollY ∧
      dom.scrollY < element.offsetTop + element.offsetHeight - dom.innerHeight / 2)
  | none => false

/-- Section 4.1 of the specification, in its words: the last matching section in declaration
order, if any. -/
def specLastMatching (dom : Dom) : Option String :=
  (sections.filter (specSectionMatches dom)).getLast?

/-! ## Concrete pages and posts used in the scenarios -/

/-- A page without section elements and without a navigation bar, at the given scroll
geometry. -/
def bareDom (scrollY innerHeight scrollHeight : ℚ) : Dom :=
  { scrollY := scrollY, innerHeight := innerHeight, scrollHeight := scrollHeight,
    getElementById := fun _ => none, nav := none }

/-- The page of the scenario of the specification: `home` at top 0 with height 800, `posts`
at top 800 with height 1000, viewport height 800, total height 1800. -/
def scenarioDom (scrollY : ℚ) : Dom :=
  { scrollY := scrollY, innerHeight := 800, scrollHeight := 1800,
    getElementById := fun id =>
      if id = "home" then some ⟨0, 800, 0 - scrollY⟩
      else if id = "posts" then some ⟨800, 1000, 800 - scrollY⟩
      else none,
    nav := some 64 }

/-- First post of the catalog. -/
def postVR : Post :=
  ⟨1, "Exploring Virtual Reality",
    "Dive into the world of VR and its impact on our senses.",
    "Full content of the VR post...", "/optic.jpg"⟩

/-- Second post of the catalog. -/
def postSound : Post :=
  ⟨2, "The Art of Sound Design",
    "Discover how sound shapes our perception of reality.",
    "Full content of the sound design post...", "/exhibition.jpg"⟩

/-- Number of scroll-lock engagements recorded in the trace: writes of `hidden` to the body
overflow style. -/
def lockEngagements (w : World) : Nat :=
  (w.effects.filter (fun e => e == Effect.setBodyOverflow "hidden")).length

/-- A page on which the section `home` exists but no navigation bar does. -/
def noNavDom : Dom :=
  { scrollY := 0, innerHeight := 800, scrollHeight := 1800,
    getElementById := fun id => if id = "home" then some ⟨0, 800, 0⟩ else none,
    nav := none }

/-! ## Helper lemmas -/

theorem postVR_mem_posts : postVR ∈ posts := by
  simp [posts, postVR]

theorem postSound_mem_posts : postSound ∈ posts := by
  simp [posts, postSound]

theorem sectionStep_scrollProgress (dom : Dom) (ui : UIState) (sec : String) :
    (sectionStep dom ui sec).scrollProgress = ui.scrollProgress := by
  unfold sectionStep
  split
  · split <;> rfl
  · rfl

theorem foldl_sectionStep_scrollProgress (dom : Dom) (l : List String) (ui : UIState) :
    (l.foldl (sectionStep dom) ui).scrollProgress = ui.scrollProgress := by
  induction l generalizing ui with
  | nil => rfl
  | cons a l ih => rw [List.foldl_cons, ih, sectionStep_scrollProgress]

theorem handleScroll_scrollProgress (dom : Dom) (w : World) :
    (handleScroll dom w).ui.scrollProgress =
      scrollPercentage dom.scrollY dom.innerHeight dom.scrollHeight := by
  unfold handleScroll
  simp only [foldl_sectionStep_scrollProgress]

theorem scrollPercentage_of_pos (s v t : ℚ) (h : v < t) :
    scrollPercentage s v t = JSNum.fin (s / (t - v) * 100) := by
  have hne : t - v ≠ 0 := by linarith
  simp [scrollPercentage, JSNum.divFin, JSNum.mulFin, hne]

theorem sectionStep_eq_of_matches (dom : Dom) (ui : UIState) (sec : String)
    (h : specSectionMatches dom sec = true) :
    sectionStep dom ui sec = { ui with activeSection := sec } := by
  unfold specSectionMatches at h
  unfold sectionStep
  cases hE : dom.getElementById sec with
  | none => simp [hE] at h
  | some element =>
    simp only [hE, decide_eq_true_eq] at h
    have : inActiveRange dom.scrollY dom.innerHeight element = true := by
      simp [inActiveRange, h.1, h.2]
    simp [this]

theorem sectionStep_eq_of_not_matches (dom : Dom) (ui : UIState) (sec : String)
    (h : specSectionMatches dom sec = false) :
    sectionStep dom ui sec = ui := by
  unfold specSectionMatches at h
  unfold sectionStep
  cases hE : dom.getElementById sec with
  | none => rfl
  | some element =>
    simp only [hE, decide_eq_false_iff_not, not_and, not_lt] at h
    have : inActiveRange dom.scrollY dom.innerHeight element = false := by
      simp only [inActiveRange, Bool.and_eq_false_iff, decide_eq_false_iff_not, ge_iff_le,
        not_le, not_lt]
      by_cases h1 : element.offsetTop - dom.innerHeight / 2 ≤ dom.scrollY
      · exact Or.inr (h h1)
      · exact Or.inl (lt_of_not_le h1)
    simp [this]

theorem foldl_sectionStep_activeSection (dom : Dom) (l : List String) (ui : UIState) :
    (l.foldl (sectionStep dom) ui).activeSection =
      ((l.filter (specSectionMatches dom)).getLast?).getD ui.activeSection := by
  induction l generalizing ui with
  | nil => rfl
  | cons a l ih =>
    rw [List.foldl_cons, ih]
    cases hm : specSectionMatches dom a with
    | true =>
      rw [sectionStep_eq_of_matches dom ui a hm, List.filter_cons_of_pos hm, List.getLast?_cons]
      cases (l.filter (specSectionMatches dom)).getLast? <;> rfl
    | false =>
      rw [sectionStep_eq_of_not_matches dom ui a hm]
      have : ¬ (specSectionMatches dom a = true) := by simp [hm]
      rw [List.filter_cons_of_neg this]

/-! ## Scroll progress -/

/-- C1: for a total height above the viewport height and scroll offsets `s1 <= s2` (in
particular for offsets inside `[0, totalHeight - viewportHeight]`), `handleScroll` stores
`s / (totalHeight - viewportHeight) * 100` as `scrollProgress`, and the stored value does not
decrease from `s1` to `s2`. -/
theorem handleScroll_scrollProgress_linear_mono (d1 d2 : Dom) (w1 w2 : World)
    (hI : d2.innerHeight = d1.innerHeight) (hH : d2.scrollHeight = d1.scrollHeight)
    (hgt : d1.innerHeight < d1.scrollHeight)
    (h12 : d1.scrollY ≤ d2.scrollY) :
    (handleScroll d1 w1).ui.scrollProgress =
        JSNum.fin (d1.scrollY / (d1.scrollHeight - d1.innerHeight) * 100) ∧
      (handleScroll d2 w2).ui.scrollProgress =
        JSNum.fin (d2.scrollY / (d1.scrollHeight - d1.innerHeight) * 100) ∧
      d1.scrollY / (d1.scrollHeight - d1.innerHeight) * 100 ≤
        d2.scrollY / (d1.scrollHeight - d1.innerHeight) * 100 := by
  have hpos : 0 < d1.scrollHeight - d1.innerHeight := by linarith
  refine ⟨?_, ?_, ?_⟩
  · rw [handleScroll_scrollProgress, scrollPercentage_of_pos _ _ _ hgt]
  · rw [handleScroll_scrollProgress, hI, hH, scrollPercentage_of_pos _ _ _ hgt]
  · have := div_le_div_of_nonneg_right h12 (le_of_lt hpos)
    linarith

/-- C1 at the scenario of the specification: viewport 800, total height 3800, offset 1500
gives 50 (and offset 3000 gives 100). -/
theorem handleScroll_scrollProgress_linear_mono_witness :
    (handleScroll (bareDom 1500 800 3800) init).ui.scrollProgress = JSNum.fin 50 ∧
      (handleScroll (bareDom 3000 800 3800) init).ui.scrollProgress = JSNum.fin 100 := by
  have h := handleScroll_scrollProgress_linear_mono (bareDom 1500 800 3800)
    (bareDom 3000 800 3800) init init rfl rfl (by norm_num [bareDom]) (by norm_num [bareDom])
  refine ⟨?_, ?_⟩
  · rw [h.1]; norm_num [bareDom]
  · rw [h.2.1]; norm_num [bareDom]

/-- C2, refuted as stated: with nothing to scroll (total height equal to the viewport height,
offset 0) the stored value is NaN, and with an offset past the scrollable range (offset 100,
viewport 800, total 850) it is 200; neither lies in `[0,100]`. -/
theorem handleScroll_scrollProgress_out_of_range :
    (handleScroll (bareDom 0 800 800) init).ui.scrollProgress = JSNum.nan ∧
      ¬ (handleScroll (bareDom 0 800 800) init).ui.scrollProgress.inPercentRange ∧
      (handleScroll (bareDom 100 800 850) init).ui.scrollProgress = JSNum.fin 200 ∧
      ¬ (handleScroll (bareDom 100 800 850) init).ui.scrollProgress.inPercentRange := by
  have h1 : (handleScroll (bareDom 0 800 800) init).ui.scrollProgress = JSNum.nan := by
    rw [handleScroll_scrollProgress]
    simp [bareDom, scrollPercentage, JSNum.divFin, JSNum.mulFin]
  have h2 : (handleScroll (bareDom 100 800 850) init).ui.scrollProgress = JSNum.fin 200 := by
    rw [handleScroll_scrollProgress]
    norm_num [bareDom, scrollPercentage, JSNum.divFin, JSNum.mulFin]
  refine ⟨h1, ?_, h2, ?_⟩
  · rw [h1]; simp [JSNum.inPercentRange]
  · rw [h2]; norm_num [JSNum.inPercentRange]

/-- C2, amended: when the total height exceeds the viewport height and the scroll offset lies
in `[0, totalHeight - viewportHeight]`, the `scrollProgress` stored by `handleScroll` is a
number in `[0,100]`. -/
theorem handleScroll_scrollProgress_in_range (dom : Dom) (w : World)
    (hgt : dom.innerHeight < dom.scrollHeight)
    (h0 : 0 ≤ dom.scrollY) (h1 : dom.scrollY ≤ dom.scrollHeight - dom.innerHeight) :
    (handleScroll dom w).ui.scrollProgress.inPercentRange := by
  have hpos : 0 < dom.scrollHeight - dom.innerHeight := by linarith
  rw [handleScroll_scrollProgress, scrollPercentage_of_pos _ _ _ hgt]
  show 0 ≤ _ ∧ _ ≤ (100 : ℚ)
  constructor
  · positivity
  · have : dom.scrollY / (dom.scrollHeight - dom.innerHeight) ≤ 1 :=
      (div_le_one hpos).mpr h1
    linarith

/-- C2 amended, at viewport 800, total height 3800, offset 1500. -/
theorem handleScroll_scrollProgress_in_range_witness :
    (handleScroll (bareDom 1500 800 3800) init).ui.scrollProgress.inPercentRange :=
  handleScroll_scrollProgress_in_range (bareDom 1500 800 3800) init
    (by norm_num [bareDom]) (by norm_num [bareDom]) (by norm_num [bareDom])

/-! ## Active section -/

/-- C3: after `handleScroll` the active section is the last section in declaration order
whose element exists and whose range `[top - viewportHeight/2, top + height - viewportHeight/2)`
contains the offset; when no section matches, it is unchanged. -/
theorem handleScroll_activeSection_last_match (dom : Dom) (w : World) :
    (handleScroll dom w).ui.activeSection =
      match specLastMatching dom with
      | some sec => sec
      | none => w.ui.activeSection := by
  unfold handleScroll specLastMatching
  simp only [foldl_sectionStep_activeSection]
  cases (sections.filter (specSectionMatches dom)).getLast? <;> rfl

/-- C3 at the scenario of the specification: offset 1000 makes `posts` the active section,
and an offset matching no section (1500) leaves the active section as it was. -/
theorem handleScroll_activeSection_last_match_witness :
    (handleScroll (scenarioDom 1000) init).ui.activeSection = "posts" ∧
      (handleScroll (scenarioDom 1500) init).ui.activeSection = "home" := by
  have e1 : specLastMatching (scenarioDom 1000) = some "posts" := by
    have hh : specSectionMatches (scenarioDom 1000) "home" = false := by
      norm_num [specSectionMatches, scenarioDom]
    have hp : specSectionMatches (scenarioDom 1000) "posts" = true := by
      simp only [specSectionMatches, scenarioDom, String.reduceEq, if_true, if_false]
      norm_num
    have ha : specSectionMatches (scenarioDom 1000) "about" = false := by
      simp [specSectionMatches, scenarioDom]
    have hc : specSectionMatches (scenarioDom 1000) "contact" = false := by
      simp [specSectionMatches, scenarioDom]
    simp [specLastMatching, sections, List.filter, hh, hp, ha, hc]
  have e2 : specLastMatching (scenarioDom 1500) = none := by
    have hh : specSectionMatches (scenarioDom 1500) "home" = false := by
      norm_num [specSectionMatches, scenarioDom]
    have hp : specSectionMatches (scenarioDom 1500) "posts" = false := by
      simp only [specSectionMatches, scenarioDom, String.reduceEq, if_true, if_false]
      norm_num
    have ha : specSectionMatches (scenarioDom 1500) "about" = false := by
      simp [specSectionMatches, scenarioDom]
    have hc : specSectionMatches (scenarioDom 1500) "contact" = false := by
      simp [specSectionMatches, scenarioDom]
    simp [specLastMatching, sections, List.filter, hh, hp, ha, hc]
  refine ⟨?_, ?_⟩
  · rw [handleScroll_activeSection_last_match, e1]
  · rw [handleScroll_activeSection_last_match, e2]
    rfl

/-! ## Post viewer -/

/-- C4, refuted as stated: starting from the state in which a post is already open (scroll
lock engaged, body overflow `hidden`), `openPost` followed by `closePost` leaves the body
overflow at `auto`: the lock that was engaged before the call is released. -/
theorem openPost_closePost_releases_prior_lock :
    scrollLocked (openPost postVR init) = true ∧
      scrollLocked (closePost (openPost postSound (openPost postVR init))) = false ∧
      (closePost (openPost postSound (openPost postVR init))).bodyOverflow ≠
        (openPost postVR init).bodyOverflow := by
  refine ⟨?_, ?_, ?_⟩
  · simp [scrollLocked, openPost]
  · simp [scrollLocked, closePost]
  · simp [closePost, openPost]

/-- C4, amended: starting from any state whose scroll lock is not engaged, `openPost p`
followed by `closePost` leaves the scroll lock not engaged, as before (the body overflow is
then `auto`), clears the selected post and keeps the other fields of the UI state. -/
theorem openPost_closePost_unlocked (p : Post) (w : World) (h : scrollLocked w = false) :
    scrollLocked (closePost (openPost p w)) = scrollLocked w ∧
      (closePost (openPost p w)).bodyOverflow = "auto" ∧
      (closePost (openPost p w)).ui.activePost = none ∧
      (closePost (openPost p w)).ui.activeSection = w.ui.activeSection ∧
      (closePost (openPost p w)).ui.isMenuOpen = w.ui.isMenuOpen ∧
      (closePost (openPost p w)).ui.scrollProgress = w.ui.scrollProgress := by
  refine ⟨?_, rfl, rfl, rfl, rfl, rfl⟩
  rw [h]
  simp [scrollLocked, closePost]

/-- C4 amended, at the initial state with the first post of the catalog. -/
theorem openPost_closePost_unlocked_witness :
    scrollLocked init = false ∧
      scrollLocked (closePost (openPost postVR init)) = scrollLocked init ∧
      (closePost (openPost postVR init)).ui.activePost = none := by
  have h0 : scrollLocked init = false := by simp [scrollLocked, init]
  have h := openPost_closePost_unlocked postVR init h0
  exact ⟨h0, h.1, h.2.2.1⟩

/-- C5, refuted as stated: two `openPost` calls from the initial (Closed) state record two
scroll-lock engagements, not one: the second call writes `hidden` again. -/
theorem openPost_second_call_rewrites_lock :
    lockEngagements init = 0 ∧
      lockEngagements (openPost postSound (openPost postVR init)) = 2 ∧
      (openPost postSound (openPost postVR init)).effects =
        [Effect.setBodyOverflow "hidden", Effect.setBodyOverflow "hidden"] ∧
      ¬ ((openPost postSound (openPost postVR init)).ui.activePost = some postSound ∧
          lockEngagements (openPost postSound (openPost postVR init)) = 1) := by
  have h2 : lockEngagements (openPost postSound (openPost postVR init)) = 2 := by
    simp [lockEngagements, openPost, init]
  refine ⟨?_, h2, ?_, ?_⟩
  · simp [lockEngagements, init]
  · simp [openPost, init]
  · rw [h2]
    simp

/-- C5, amended: `openPost p` followed by `openPost q` leaves the modal open on `q` with the
scroll lock engaged; each of the two calls issues the write of `hidden` to the body overflow
(two writes appended to the trace), and the second write leaves the overflow value as the
first one set it. -/
theorem openPost_openPost_replaces_and_relocks (p q : Post) (w : World) :
    (openPost q (openPost p w)).ui.activePost = some q ∧
      scrollLocked (openPost q (openPost p w)) = true ∧
      (openPost q (openPost p w)).bodyOverflow = (openPost p w).bodyOverflow ∧
      (openPost q (openPost p w)).effects =
        w.effects ++ [Effect.setBodyOverflow "hidden", Effect.setBodyOverflow "hidden"] ∧
      lockEngagements (openPost q (openPost p w)) = lockEngagements w + 2 := by
  refine ⟨rfl, ?_, rfl, ?_, ?_⟩
  · simp [scrollLocked, openPost]
  · simp [openPost]
  · simp [lockEngagements, openPost, List.filter_append]

/-! ## Navigation and mobile menu -/

/-- C7: when the section element exists (and the navigation bar it measures is present),
`scrollToSection` returns normally, leaves everything else untouched and appends exactly one
scroll command: a smooth scroll to `elementTop + currentScrollOffset - navbarHeight`. -/
theorem scrollToSection_target (dom : Dom) (sectionId : String) (w : World)
    (element : Element) (navbarHeight : ℚ)
    (hE : dom.getElementById sectionId = some element) (hN : dom.nav = some navbarHeight) :
    scrollToSection dom sectionId w =
      Except.ok { w with
        effects := w.effects ++
          [Effect.scrollTo (element.rectTop + dom.scrollY - navbarHeight) "smooth"] } := by
  simp [scrollToSection, hE, hN]

/-- C7 on the scenario page scrolled to 1000 with a navigation bar 64 high: navigating to
`posts` (viewport-relative top -200) issues the single command `scrollTo 736 smooth`. -/
theorem scrollToSection_target_witness :
    scrollToSection (scenarioDom 1000) "posts" init =
      Except.ok { init with effects := [Effect.scrollTo 736 "smooth"] } := by
  have h := scrollToSection_target (scenarioDom 1000) "posts" init ⟨800, 1000, 800 - 1000⟩ 64
    (by simp [scenarioDom]) rfl
  rw [h]
  norm_num [init, scenarioDom]

/-- C6: the click handler of an entry of the mobile menu, as mounted by any render that shows
the overlay, run in any current state with the navigation bar present, returns normally with
`isMenuOpen` false, the other UI fields and the body overflow unchanged, and the effect of
exactly one `scrollToSection` call for that section: one smooth scroll command to that section
when its element exists, none otherwise. -/
theorem mobileMenuOnClick_closes_and_navigates (isMenuOpen : Bool)
    (onClick : Dom → String → World → Except JSError World)
    (dom : Dom) (sec : String) (w : World) (navbarHeight : ℚ)
    (hRender : renderMobileMenu isMenuOpen = some onClick)
    (hN : dom.nav = some navbarHeight) :
    ∃ w1, onClick dom sec w = Except.ok w1 ∧
      w1.ui.isMenuOpen = false ∧
      w1.ui.activeSection = w.ui.activeSection ∧
      w1.ui.activePost = w.ui.activePost ∧
      w1.ui.scrollProgress = w.ui.scrollProgress ∧
      w1.bodyOverflow = w.bodyOverflow ∧
      w1.effects = w.effects ++
        (match dom.getElementById sec with
         | some element =>
           [Effect.scrollTo (element.rectTop + dom.scrollY - navbarHeight) "smooth"]
         | none => []) := by
  cases isMenuOpen with
  | false => simp [renderMobileMenu] at hRender
  | true =>
    have hc : onClick = mobileMenuOnClick true := by
      simp [renderMobileMenu] at hRender
      exact hRender.symm
    subst hc
    cases hE : dom.getElementById sec with
    | none =>
      refine ⟨toggleMenu true w, ?_, rfl, rfl, rfl, rfl, rfl, ?_⟩
      · simp [mobileMenuOnClick, scrollToSection, hE]
      · simp [toggleMenu]
    | some element =>
      refine ⟨toggleMenu true { w with
        effects := w.effects ++
          [Effect.scrollTo (element.rectTop + dom.scrollY - navbarHeight) "smooth"] },
        ?_, rfl, rfl, rfl, rfl, rfl, rfl⟩
      simp [mobileMenuOnClick, scrollToSection, hE, hN]

/-- C6 on the scenario page scrolled to 1000: with the menu open, selecting `posts` closes the
menu and issues the single command `scrollTo 736 smooth`; a second click on the overlay that is
still mounted, with the menu state already false, leaves the menu closed. -/
theorem mobileMenuOnClick_closes_and_navigates_witness :
    renderMobileMenu true = some (mobileMenuOnClick true) ∧
      (∃ w1, mobileMenuOnClick true (scenarioDom 1000) "posts" (toggleMenu false init) =
          Except.ok w1 ∧
        w1.ui.isMenuOpen = false ∧
        w1.ui.activeSection = "home" ∧
        w1.effects = [Effect.scrollTo 736 "smooth"]) ∧
      (∃ w2, mobileMenuOnClick true (scenarioDom 1000) "posts" init = Except.ok w2 ∧
        w2.ui.isMenuOpen = false) := by
  refine ⟨rfl, ?_, ?_⟩
  · obtain ⟨w1, h1, h2, h3, _, _, _, h7⟩ :=
      mobileMenuOnClick_closes_and_navigates true (mobileMenuOnClick true) (scenarioDom 1000)
        "posts" (toggleMenu false init) 64 rfl rfl
    refine ⟨w1, h1, h2, ?_, ?_⟩
    · rw [h3]; rfl
    · rw [h7]
      simp only [scenarioDom, String.reduceEq, if_true, if_false, toggleMenu, init,
        List.nil_append]
      norm_num
  · obtain ⟨w2, h1, h2, _⟩ :=
      mobileMenuOnClick_closes_and_navigates true (mobileMenuOnClick true) (scenarioDom 1000)
        "posts" init 64 rfl rfl
    exact ⟨w2, h1, h2⟩

/-- C8, refuted as stated: with the section element present and the navigation bar missing,
`scrollToSection` throws a `TypeError` instead of being a silent no-op. -/
theorem scrollToSection_missing_nav_throws :
    noNavDom.nav = none ∧
      scrollToSection noNavDom "home" init = Except.error JSError.typeError ∧
      scrollToSection noNavDom "home" init ≠ Except.ok init := by
  have h : scrollToSection noNavDom "home" init = Except.error JSError.typeError := by
    simp [scrollToSection, noNavDom]
  refine ⟨rfl, h, ?_⟩
  rw [h]
  simp

/-- C8, amended: when the target section element is missing, `scrollToSection` returns
normally with the state and the trace of DOM writes unchanged (whether or not a navigation
bar exists), and the step of `handleScroll` for that section leaves the UI state unchanged. -/
theorem missing_section_is_noop (dom : Dom) (sectionId : String) (w : World)
    (hE : dom.getElementById sectionId = none) :
    scrollToSection dom sectionId w = Except.ok w ∧
      sectionStep dom w.ui sectionId = w.ui ∧
      (∀ l : List String, (∀ s ∈ l, dom.getElementById s = none) →
        l.foldl (sectionStep dom) w.ui = w.ui) := by
  refine ⟨?_, ?_, ?_⟩
  · simp [scrollToSection, hE]
  · simp [sectionStep, hE]
  · intro l
    induction l with
    | nil => intro _; rfl
    | cons a l ih =>
      intro hl
      have ha : dom.getElementById a = none := hl a (List.mem_cons_self a l)
      have hstep : sectionStep dom w.ui a = w.ui := by simp [sectionStep, ha]
      rw [List.foldl_cons, hstep]
      exact ih (fun s hs => hl s (List.mem_cons_of_mem a hs))

/-- C8 amended, on the page without a navigation bar: the missing section `about` is skipped
by both operations. -/
theorem missing_section_is_noop_witness :
    scrollToSection noNavDom "about" init = Except.ok init ∧
      sectionStep noNavDom init.ui "about" = init.ui :=
  have h := missing_section_is_noop noNavDom "about" init (by simp [noNavDom])
  ⟨h.1, h.2.1⟩

/-! ## Reachable states -/

theorem sectionStep_activeSection_mem (dom : Dom) (ui : UIState) (sec : String)
    (hs : sec ∈ sections) (h : ui.activeSection ∈ sections) :
    (sectionStep dom ui sec).activeSection ∈ sections := by
  unfold sectionStep
  split
  · split
    · exact hs
    · exact h
  · exact h

theorem foldl_sectionStep_activeSection_mem (dom : Dom) (l : List String)
    (hl : ∀ s ∈ l, s ∈ sections) (ui : UIState) (h : ui.activeSection ∈ sections) :
    (l.foldl (sectionStep dom) ui).activeSection ∈ sections := by
  induction l generalizing ui with
  | nil => exact h
  | cons a l ih =>
    rw [List.foldl_cons]
    exact ih (fun s hs => hl s (List.mem_cons_of_mem a hs)) _
      (sectionStep_activeSection_mem dom ui a (hl a (List.mem_cons_self a l)) h)

theorem scrollToSection_ui (dom : Dom) (sectionId : String) (w w1 : World)
    (h : scrollToSection dom sectionId w = Except.ok w1) : w1.ui = w.ui := by
  unfold scrollToSection at h
  split at h
  · split at h
    · cases h
    · cases h
      rfl
  · cases h
    rfl

theorem step_activeSection_mem (w : World) (e : Event)
    (h : w.ui.activeSection ∈ sections) : (step w e).ui.activeSection ∈ sections := by
  cases e with
  | scroll dom =>
    exact foldl_sectionStep_activeSection_mem dom sections (fun _ hs => hs) _ h
  | toggleMenu b => exact h
  | navigate dom sectionId =>
    show (match scrollToSection dom sectionId w with
      | Except.ok w1 => w1
      | Except.error _ => w).ui.activeSection ∈ sections
    cases hr : scrollToSection dom sectionId w with
    | error _ => exact h
    | ok w1 =>
      show w1.ui.activeSection ∈ sections
      rw [scrollToSection_ui dom sectionId w w1 hr]
      exact h
  | mobileSelect dom sec =>
    show (match mobileMenuOnClick true dom sec w with
      | Except.ok w1 => w1
      | Except.error _ => w).ui.activeSection ∈ sections
    unfold mobileMenuOnClick
    cases hr : scrollToSection dom sec w with
    | error _ => exact h
    | ok w1 =>
      show (toggleMenu true w1).ui.activeSection ∈ sections
      have := scrollToSection_ui dom sec w w1 hr
      show w1.ui.activeSection ∈ sections
      rw [this]
      exact h
  | openPost post => exact h
  | closePost => exact h

/-- C9: in every state reached from the initial state by any sequence of scroll events, menu
toggles, navigation calls, mobile-menu selections and `openPost`/`closePost` calls, the active
section is one of `home`, `posts`, `about`, `contact`. -/
theorem activeSection_always_known (es : List Event) :
    (run init es).ui.activeSection ∈ sections := by
  have key : ∀ (l : List Event) (w : World), w.ui.activeSection ∈ sections →
      (run w l).ui.activeSection ∈ sections := by
    intro l
    induction l with
    | nil => intro w hw; exact hw
    | cons e l ih =>
      intro w hw
      exact ih (step w e) (step_activeSection_mem w e hw)
  exact key es init (by simp [init, sections])

/-! ## Closing the post viewer when no post is open -/

theorem sectionStep_activePost (dom : Dom) (ui : UIState) (sec : String) :
    (sectionStep dom ui sec).activePost = ui.activePost := by
  unfold sectionStep
  split
  · split <;> rfl
  · rfl

theorem foldl_sectionStep_activePost (dom : Dom) (l : List String) (ui : UIState) :
    (l.foldl (sectionStep dom) ui).activePost = ui.activePost := by
  induction l generalizing ui with
  | nil => rfl
  | cons a l ih => rw [List.foldl_cons, ih, sectionStep_activePost]

theorem scrollToSection_bodyOverflow (dom : Dom) (sectionId : String) (w w1 : World)
    (h : scrollToSection dom sectionId w = Except.ok w1) : w1.bodyOverflow = w.bodyOverflow := by
  unfold scrollToSection at h
  split at h
  · split at h
    · cases h
    · cases h
      rfl
  · cases h
    rfl

theorem step_closed_unlocked (w : World) (e : Event)
    (h : w.ui.activePost = none → w.bodyOverflow = "auto") :
    (step w e).ui.activePost = none → (step w e).bodyOverflow = "auto" := by
  cases e with
  | scroll dom =>
    intro hc
    have hp : (handleScroll dom w).ui.activePost = w.ui.activePost := by
      unfold handleScroll
      simp only [foldl_sectionStep_activePost]
    exact h (hp ▸ hc)
  | toggleMenu b => exact h
  | navigate dom sectionId =>
    show (match scrollToSection dom sectionId w with
      | Except.ok w1 => w1
      | Except.error _ => w).ui.activePost = none →
      (match scrollToSection dom sectionId w with
      | Except.ok w1 => w1
      | Except.error _ => w).bodyOverflow = "auto"
    cases hr : scrollToSection dom sectionId w with
    | error _ => exact h
    | ok w1 =>
      show w1.ui.activePost = none → w1.bodyOverflow = "auto"
      rw [scrollToSection_ui dom sectionId w w1 hr,
        scrollToSection_bodyOverflow dom sectionId w w1 hr]
      exact h
  | mobileSelect dom sec =>
    show (match mobileMenuOnClick true dom sec w with
      | Except.ok w1 => w1
      | Except.error _ => w).ui.activePost = none →
      (match mobileMenuOnClick true dom sec w with
      | Except.ok w1 => w1
      | Except.error _ => w).bodyOverflow = "auto"
    unfold mobileMenuOnClick
    cases hr : scrollToSection dom sec w with
    | error _ => exact h
    | ok w1 =>
      show w1.ui.activePost = none → w1.bodyOverflow = "auto"
      rw [scrollToSection_ui dom sec w w1 hr, scrollToSection_bodyOverflow dom sec w w1 hr]
      exact h
  | openPost post =>
    intro hc
    simp [step, openPost] at hc
  | closePost =>
    intro _
    rfl

theorem run_closed_unlocked (es : List Event) (w : World)
    (h : w.ui.activePost = none → w.bodyOverflow = "auto") :
    (run w es).ui.activePost = none → (run w es).bodyOverflow = "auto" := by
  induction es generalizing w with
  | nil => exact h
  | cons e es ih => exact ih (step w e) (step_closed_unlocked w e h)

theorem run_append (w : World) (es1 es2 : List Event) :
    run w (es1 ++ es2) = run (run w es1) es2 := by
  unfold run
  rw [List.foldl_append]

theorem closePost_ui_of_closed (w : World) (h : w.ui.activePost = none) :
    (closePost w).ui = w.ui := by
  cases w with
  | mk ui b e =>
    cases ui with
    | mk a m ap sp =>
      simp only at h
      subst h
      rfl

/-- C10: in every Closed state (no post selected) in which `closePost` can be called, that is
every state reached from the initial state by a sequence of events in which a post has been
opened (the close button exists only on a modal mounted by `openPost`), `closePost` is a no-op:
the selected post stays empty, the body overflow and the scroll-lock state are what they were
before the call, and so is the whole UI state. -/
theorem closePost_closed_noop (es : List Event) (p : Post)
    (hOpened : Event.openPost p ∈ es)
    (hClosed : (run init es).ui.activePost = none) :
    (closePost (run init es)).ui.activePost = none ∧
      (closePost (run init es)).bodyOverflow = (run init es).bodyOverflow ∧
      scrollLocked (closePost (run init es)) = scrollLocked (run init es) ∧
      (closePost (run init es)).ui = (run init es).ui := by
  obtain ⟨es1, es2, hes⟩ := List.append_of_mem hOpened
  have hauto : (run init es).bodyOverflow = "auto" := by
    have hrun : run init es = run (openPost p (run init es1)) es2 := by
      rw [hes, run_append]
      rfl
    rw [hrun] at hClosed ⊢
    refine run_closed_unlocked es2 (openPost p (run init es1)) ?_ hClosed
    intro hc
    simp [openPost] at hc
  have hb : (closePost (run init es)).bodyOverflow = (run init es).bodyOverflow := by
    rw [hauto]
    rfl
  refine ⟨rfl, hb, ?_, closePost_ui_of_closed _ hClosed⟩
  unfold scrollLocked
  rw [hb]

/-- C10 after opening and closing the first post of the catalog: a second `closePost` (a click
on the modal that is still mounted) changes neither the UI state nor the body overflow. -/
theorem closePost_closed_noop_witness :
    (run init [Event.openPost postVR, Event.closePost]).ui.activePost = none ∧
      (closePost (run init [Event.openPost postVR, Event.closePost])).bodyOverflow = "auto" ∧
      (closePost (run init [Event.openPost postVR, Event.closePost])).ui =
        (run init [Event.openPost postVR, Event.closePost]).ui := by
  have h := closePost_closed_noop [Event.openPost postVR, Event.closePost] postVR
    (List.mem_cons_self _ _) rfl
  exact ⟨rfl, h.2.1.trans rfl, h.2.2.2⟩

end SensoriumWebsite
